import Mathlib

/-
Verification development for the amazon_logistics_dashboard repository.

The repository contains two batch scripts:
  scripts/processed_enhanced_last_mile_data.py  (pipeline B, route aggregator)
  scripts/data_generation.py                    (pipeline A, synthetic order generator)

This file gives a shallow embedding of the data model and the operations of
both scripts, translated from the Python source, and proves theorems about
them.  JSON values are modelled by an inductive type; Python dict access,
truthiness and the or-chains of the source are modelled explicitly.  Numbers
are modelled by the rationals (the Python source manipulates ints and floats
with exact small-decimal arithmetic in every place the theorems touch).
Randomness in pipeline A is modelled by passing every random draw explicitly.
File input is modelled by outcome types (missing / malformed / parsed),
since the load functions of the source are defined entirely by which of
those cases occurred.
-/

set_option linter.unusedVariables false

/-- JSON values as loaded by json.load in the source: null, booleans, numbers,
strings, arrays and objects.  Objects are association lists of string keys
(Python dicts have unique keys; lookup takes the first binding). -/
inductive Json where
  | null
  | bool (b : Bool)
  | num (q : ℚ)
  | str (s : String)
  | arr (elems : List Json)
  | obj (fields : List (String × Json))

/-- Python truthiness of a JSON value: None, False, 0, empty string, empty
list and empty dict are falsy, everything else is truthy. -/
def Json.truthy : Json → Bool
  | .null => false
  | .bool b => b
  | .num q => decide (q ≠ 0)
  | .str s => decide (s ≠ "")
  | .arr elems => !elems.isEmpty
  | .obj fields => !fields.isEmpty

/-- Whether a JSON value is an object, as tested by isinstance(x, dict) in
the source. -/
def Json.isObj : Json → Bool
  | .obj _ => true
  | _ => false

/-- Whether a JSON value is a number. -/
def Json.isNum : Json → Bool
  | .num _ => true
  | _ => false

/-- Python d.get(key) on a dict: the value bound to the key, if present.
On a non-object the model returns none (the source only applies it to
dicts). -/
def Json.objGet : Json → String → Option Json
  | .obj fields, key => fields.lookup key
  | _, _ => none

/-- The entries of a JSON object (Python dict.items()); empty on
non-objects. -/
def Json.objEntries : Json → List (String × Json)
  | .obj fields => fields
  | _ => []

/-- The keys of a JSON object (Python dict.keys()). -/
def Json.keys (j : Json) : List String :=
  j.objEntries.map Prod.fst

/-- Numeric value of a JSON value used in Python arithmetic: numbers are
themselves, True and False count as 1 and 0 (Python bool is an int).  Other
values would raise a TypeError in the Python arithmetic; the theorems that
touch this function carry hypotheses keeping those out of scope, and the
model returns 0 there. -/
def Json.toQ : Json → ℚ
  | .num q => q
  | .bool b => if b then 1 else 0
  | _ => 0

/-- Python d.get(key, default) followed by use in arithmetic: the numeric
value of the binding, or the default when the key is absent. -/
def getQD (j : Json) (key : String) (default : ℚ) : ℚ :=
  match j.objGet key with
  | some v => v.toQ
  | none => default

/-- Truthiness of an Option Json, where none models Python None. -/
def optTruthy : Option Json → Bool
  | some v => v.truthy
  | none => false

/-- The Python expression a or b for optional JSON values: a if a is truthy,
otherwise b. -/
def pyOr (a b : Option Json) : Option Json :=
  if optTruthy a then a else b

/- ----------------------------------------------------------------------
Pipeline B: scripts/processed_enhanced_last_mile_data.py
---------------------------------------------------------------------- -/

/-- Outcome of attempting to read and parse one JSON file, abstracting the
file system: the file is missing, its content fails to decode
(json.JSONDecodeError), some other error occurs while loading, or it parses
to a JSON value. -/
inductive JsonFileOutcome where
  | missing
  | decodeError
  | otherError
  | parsed (content : Json)

/-- load_json_file (source lines 11 to 26): returns the parsed content when
the file exists and parses to truthy (non-empty) content, and an empty dict
when the file is missing, fails to decode, fails for any other reason, or
parses to falsy content.  Every failure path is caught inside the function,
which the totality of this definition reflects. -/
def load_json_file : JsonFileOutcome → Json
  | .missing => .obj []
  | .decodeError => .obj []
  | .otherError => .obj []
  | .parsed content => if content.truthy then content else .obj []

/-- Clamp a rational at zero from below, modelling the guard
if x < 0 then x = 0.0 (source line 89). -/
def clamp0 (q : ℚ) : ℚ :=
  if q < 0 then 0 else q

/-- The stops value resolved by route_details.get(..) with default {}
(source line 77). -/
def stopsResolved (route_details : Json) : Json :=
  (route_details.objGet "stops").getD (Json.obj [])

/-- Travel-time accumulator contribution of one stop entry (source lines 83
to 85): only stop entries that are dicts contribute, with absent fields
defaulting to 0. -/
def stopTravel (stop_detail : Json) : ℚ :=
  if stop_detail.isObj then getQD stop_detail "travel_time_to_next_stop_in_seconds" 0 else 0

/-- Planned-service-time accumulator contribution of one stop entry (source
lines 83 to 86). -/
def stopService (stop_detail : Json) : ℚ :=
  if stop_detail.isObj then getQD stop_detail "planned_service_time_seconds" 0 else 0

/-- actual_route_duration_hours of process_single_route_data (source lines
63 and 77 to 89): when route_details is truthy and its stops value is a
truthy dict, sum travel times and planned service times over all dict-valued
stop entries, divide the total by 3600, and clamp the result at zero;
otherwise the initial 0.0 stands. -/
def routeDuration (route_details : Json) : ℚ :=
  if route_details.truthy then
    if (stopsResolved route_details).truthy && (stopsResolved route_details).isObj then
      clamp0 ((((stopsResolved route_details).objEntries.map fun p => stopTravel p.2).sum +
               ((stopsResolved route_details).objEntries.map fun p => stopService p.2).sum) / 3600)
    else 0
  else 0

/-- The inner packages dict of process_single_route_data (source lines 92 to
94): package_details.get("AD", {}), replaced by package_details["packages"]
when that result is falsy and "packages" is present and a dict. -/
def innerPackages (package_details_for_route : Json) : Json :=
  if ((package_details_for_route.objGet "AD").getD (Json.obj [])).truthy then
    (package_details_for_route.objGet "AD").getD (Json.obj [])
  else
    match package_details_for_route.objGet "packages" with
    | some (Json.obj gs) => Json.obj gs
    | _ => (package_details_for_route.objGet "AD").getD (Json.obj [])

/-- Volume contribution of one package (source lines 100 to 104): when the
package has a "dimensions" value that is a dict, the product of its
depth_cm, height_cm and width_cm fields, each defaulting to 0 when absent;
otherwise 0. -/
def pkgVolume (pkg : Json) : ℚ :=
  match pkg.objGet "dimensions" with
  | some (Json.obj ds) =>
      getQD (Json.obj ds) "depth_cm" 0 * getQD (Json.obj ds) "height_cm" 0 *
        getQD (Json.obj ds) "width_cm" 0
  | _ => 0

/-- num_deliveries of process_single_route_data (source lines 61 and 91 to
97): the number of entries of the inner packages dict when package_details
is truthy, otherwise the initial 0. -/
def numDeliveries (package_details_for_route : Json) : ℕ :=
  if package_details_for_route.truthy then
    ((innerPackages package_details_for_route).objEntries).length
  else 0

/-- total_calculated_volume_cm3 of process_single_route_data (source lines
62 and 91 to 104): the sum of the volume contributions of the inner
packages dict values when package_details is truthy, otherwise the initial
0.0. -/
def totalVolume (package_details_for_route : Json) : ℚ :=
  if package_details_for_route.truthy then
    (((innerPackages package_details_for_route).objEntries).map fun p => pkgVolume p.2).sum
  else 0

/-- The per-route record returned by process_single_route_data (source lines
108 to 121).  Fields that can be absent in the source data are Options;
city holds either the JSON city value or the default string Unknown. -/
structure ProcessedRoute where
  route_id : String
  city : Json
  route_date : Option Json
  station_code : Option Json
  route_score : Option Json
  origin_latitude : Option Json
  origin_longitude : Option Json
  vehicle_capacity_cm3 : Option Json
  num_deliveries : ℕ
  total_calculated_volume_cm3 : ℚ
  actual_route_duration_hours : ℚ
  actual_route_distance_km : ℚ

/-- process_single_route_data (source lines 48 to 121).  The route-details
block (lines 66 to 89) runs only when route_details is truthy; the
package-details block (lines 91 to 104) runs only when package_details is
truthy; actual_sequences is accepted and unused, as in the source; distance
is hard-coded 0.0 (line 106). -/
def process_single_route_data (route_id : String) (route_details : Json)
    (package_details_for_route : Json) (actual_sequences_for_route : Option Json) :
    ProcessedRoute :=
  { route_id := route_id
    city :=
      if route_details.truthy then (route_details.objGet "city").getD (Json.str "Unknown")
      else Json.str "Unknown"
    route_date :=
      if route_details.truthy then
        pyOr (route_details.objGet "date_YYYY_MM_DD") (route_details.objGet "date")
      else none
    station_code := if route_details.truthy then route_details.objGet "station_code" else none
    route_score := if route_details.truthy then route_details.objGet "route_score" else none
    origin_latitude :=
      if route_details.truthy then
        match route_details.objGet "origin" with
        | some (Json.obj os) => (Json.obj os).objGet "latitude"
        | _ => none
      else none
    origin_longitude :=
      if route_details.truthy then
        match route_details.objGet "origin" with
        | some (Json.obj os) => (Json.obj os).objGet "longitude"
        | _ => none
      else none
    vehicle_capacity_cm3 :=
      if route_details.truthy then
        pyOr (route_details.objGet "executor_capacity_cm3") (route_details.objGet "vehicleCapacity")
      else none
    num_deliveries := numDeliveries package_details_for_route
    total_calculated_volume_cm3 := totalVolume package_details_for_route
    actual_route_duration_hours := routeDuration route_details
    actual_route_distance_km := 0 }

/-- The set of route ids to process (source lines 156 to 159): the keys of
each of the three loaded route-data documents, each contributing only when
the document is truthy, deduplicated (the source collects them into a
set). -/
def allRouteIds (route_data_build route_data_apply route_data_eval : Json) : List String :=
  ((if route_data_build.truthy then route_data_build.keys else []) ++
   (if route_data_apply.truthy then route_data_apply.keys else []) ++
   (if route_data_eval.truthy then route_data_eval.keys else [])).dedup

/-- Resolution of one partial record for a route id across the three source
locations (source lines 169 to 171): build.get(id) or apply.get(id) or
eval.get(id), with Python or-semantics. -/
def resolveDetail (build apply_ eval_ : Json) (route_id : String) : Option Json :=
  pyOr (build.objGet route_id) (pyOr (apply_.objGet route_id) (eval_.objGet route_id))

/-- The main processing loop (source lines 168 to 190): for each route id,
resolve the three partial records; skip the route unless both the resolved
route details and the resolved package details are truthy; otherwise emit
the processed record.  The emitted record is a dict with twelve keys, hence
always truthy, so the if processed_metrics guard of line 188 always
appends.  This function is the body of one loop iteration. -/
def emitStep (rb ra re pb pa pe sb sa se : Json) (route_id : String) : Option ProcessedRoute :=
  if optTruthy (resolveDetail rb ra re route_id) &&
      optTruthy (resolveDetail pb pa pe route_id) then
    some (process_single_route_data route_id
            ((resolveDetail rb ra re route_id).getD Json.null)
            ((resolveDetail pb pa pe route_id).getD Json.null)
            (resolveDetail sb sa se route_id))
  else none

/-- The output list of the main processing loop: one processed record per
route id that passes the emission check of emitStep, in id order. -/
def emittedRows (rb ra re pb pa pe sb sa se : Json) : List ProcessedRoute :=
  (allRouteIds rb ra re).filterMap (emitStep rb ra re pb pa pe sb sa se)

/-- The route ids present in the output table. -/
def emittedIds (rb ra re pb pa pe sb sa se : Json) : List String :=
  (emittedRows rb ra re pb pa pe sb sa se).map ProcessedRoute.route_id

/- ----------------------------------------------------------------------
Pipeline A: scripts/data_generation.py
---------------------------------------------------------------------- -/

/-- NUM_ORDERS (source line 9). -/
def NUM_ORDERS : ℕ := 100000

/-- START_DATE (source line 10): datetime(2024, 1, 1), as its proleptic
Gregorian ordinal day number (the representation in which datetime
comparison and timedelta addition act). -/
def START_DATE : ℤ := 738886

/-- END_DATE (source line 11): datetime(2024, 12, 31), as its ordinal day
number. -/
def END_DATE : ℤ := 739251

/-- PRIME_MEMBER_RATIO (source line 12). -/
def PRIME_MEMBER_RATIO : ℚ := 0.70

/-- PRIME_DELIVERY_AVG_DAYS (source line 15). -/
def PRIME_DELIVERY_AVG_DAYS : ℚ := 1.5

/-- PRIME_DELIVERY_STD_DEV (source line 16). -/
def PRIME_DELIVERY_STD_DEV : ℚ := 0.5

/-- STANDARD_DELIVERY_AVG_DAYS (source line 17). -/
def STANDARD_DELIVERY_AVG_DAYS : ℚ := 6.0

/-- STANDARD_DELIVERY_STD_DEV (source line 18). -/
def STANDARD_DELIVERY_STD_DEV : ℚ := 1.5

/-- PRIME_DELAY_PROBABILITY (source line 21). -/
def PRIME_DELAY_PROBABILITY : ℚ := 0.05

/-- STANDARD_DELAY_PROBABILITY (source line 22). -/
def STANDARD_DELAY_PROBABILITY : ℚ := 0.20

/-- AVERAGE_DELAY_DAYS (source line 23). -/
def AVERAGE_DELAY_DAYS : ℤ := 2

/-- PRIME_CARRIER_DIST (source lines 26 to 31). -/
def PRIME_CARRIER_DIST : List (String × ℚ) :=
  [("AMZL", 0.85), ("UPS", 0.07), ("USPS", 0.05), ("FedEx", 0.03)]

/-- STANDARD_CARRIER_DIST (source lines 32 to 37). -/
def STANDARD_CARRIER_DIST : List (String × ℚ) :=
  [("AMZL", 0.20), ("UPS", 0.40), ("USPS", 0.30), ("FedEx", 0.10)]

/-- BASE_AMZL_COST_PER_PACKAGE (source line 40). -/
def BASE_AMZL_COST_PER_PACKAGE : ℚ := 5.00

/-- BASE_3PC_COST_PER_PACKAGE (source line 41). -/
def BASE_3PC_COST_PER_PACKAGE : ℚ := 4.00

/-- PRIME_EXPEDITED_COST_PREMIUM (source line 42). -/
def PRIME_EXPEDITED_COST_PREMIUM : ℚ := 1.2

/-- Round-half-to-even on the rationals, the rounding rule of the Python
built-in round (used at source lines 69, 71 and 143) and of numpy. -/
def roundHalfToEven (q : ℚ) : ℤ :=
  if q - (⌊q⌋ : ℚ) < 1/2 then ⌊q⌋
  else if (1 : ℚ)/2 < q - (⌊q⌋ : ℚ) then ⌊q⌋ + 1
  else if ⌊q⌋ % 2 = 0 then ⌊q⌋ else ⌊q⌋ + 1

/-- Python round(x, 2): round half to even at the second decimal. -/
def round2 (q : ℚ) : ℚ :=
  (roundHalfToEven (q * 100) : ℚ) / 100

/-- get_random_date (source lines 55 to 57): start plus a drawn number of
days; the draw is randint(0, (end - start).days), passed here explicitly. -/
def get_random_date (start endDate : ℤ) (dayDraw : ℤ) : ℤ :=
  start + dayDraw

/-- get_delivery_time (source lines 66 to 71): the normal draw (whose mean
and standard deviation depend on the membership tier, which only affects the
distribution of the draw, not this function of it) rounded to the nearest
integer, floored at 1. -/
def get_delivery_time (is_prime : Bool) (normalDraw : ℚ) : ℤ :=
  if is_prime then max 1 (roundHalfToEven normalDraw)
  else max 1 (roundHalfToEven normalDraw)

/-- Weighted categorical choice by inverse CDF over cumulative weights, the
semantics of random.choices with a single uniform draw in [0, total): walk
the distribution, subtracting weights until the draw falls inside one; the
last entry catches any remainder. -/
def weightedChoice : List (String × ℚ) → ℚ → String
  | [], _ => ""
  | [(k, _)], _ => k
  | (k, w) :: rest, u => if u < w then k else weightedChoice rest (u - w)

/-- get_carrier (source lines 59 to 64): weighted choice from the carrier
distribution of the membership tier. -/
def get_carrier (is_prime : Bool) (u : ℚ) : String :=
  if is_prime then weightedChoice PRIME_CARRIER_DIST u
  else weightedChoice STANDARD_CARRIER_DIST u

/-- Decimal digit characters of a natural number, most significant first:
the Python str(n). -/
def natDigits (n : ℕ) : List Char :=
  if n = 0 then ['0']
  else (Nat.digits 10 n).reverse.map fun d => Char.ofNat (48 + d)

/-- Zero-padded decimal rendering of a natural number to a minimum width,
the Python format spec 0wd: left-pad the decimal digits with zeros up to the
width, never truncating. -/
def padNum (width : ℕ) (n : ℕ) : String :=
  String.mk (List.replicate (width - (natDigits n).length) '0' ++ natDigits n)

/-- order_id of row i (source line 112): ORD- followed by i zero-padded to 7
digits. -/
def order_id (i : ℕ) : String :=
  "ORD-" ++ padNum 7 i

/-- The base cost selection of source line 139: the AMZL base cost when the
carrier is exactly AMZL, the third-party base cost otherwise. -/
def base_cost (carrier : String) : ℚ :=
  if carrier = "AMZL" then BASE_AMZL_COST_PER_PACKAGE else BASE_3PC_COST_PER_PACKAGE

/-- The delivery cost before the final rounding (source lines 139 to 143):
base cost, multiplied by the prime premium for prime members, multiplied by
the uniform jitter draw from [0.9, 1.1]. -/
def delivery_cost_before_round (is_prime_member : Bool) (carrier : String) (jitter : ℚ) : ℚ :=
  (if is_prime_member then base_cost carrier * PRIME_EXPEDITED_COST_PREMIUM
   else base_cost carrier) * jitter

/-- delivery_cost_to_amazon (source line 143): the pre-rounding cost rounded
to 2 decimals. -/
def delivery_cost_to_amazon (is_prime_member : Bool) (carrier : String) (jitter : ℚ) : ℚ :=
  round2 (delivery_cost_before_round is_prime_member carrier jitter)

/-- The delay trial of source lines 123 to 124: short-circuit evaluation
consumes exactly one uniform draw per row, compared against the delay
probability of the membership tier. -/
def delay_fired (is_prime_member : Bool) (delayDraw : ℚ) : Bool :=
  if is_prime_member then decide (delayDraw < PRIME_DELAY_PROBABILITY)
  else decide (delayDraw < STANDARD_DELAY_PROBABILITY)

/-- The actual delivery date (source lines 120 and 125): the expected date,
plus randint(1, AVERAGE_DELAY_DAYS) days when the delay trial fired. -/
def actual_delivery_date_of (expected : ℤ) (delayFired : Bool) (delayDays : ℤ) : ℤ :=
  if delayFired then expected + delayDays else expected

/-- The status derivation of source lines 127 to 133: three-way comparison
of the actual against the expected delivery date. -/
def delivery_status_of (actual expected : ℤ) : String :=
  if actual < expected then "Early"
  else if actual = expected then "On-Time"
  else "Late"

/-- One generated order row (source lines 156 to 169).  Dates are ordinal
day numbers; strftime formatting to YYYY-MM-DD is a bijective rendering of
them and is not modelled. -/
structure OrderRow where
  order_id : String
  customer_id : String
  order_date : ℤ
  is_prime_member : Bool
  expected_delivery_date : ℤ
  actual_delivery_date : ℤ
  delivery_status : String
  carrier : String
  delivery_cost_to_amazon : ℚ
  product_id : String
  order_quantity : ℤ
  destination_zip_code : String

/-- The random draws consumed by one iteration of the generation loop
(source lines 111 to 169), passed explicitly.  Ranges guaranteed by the
random primitives (randint bounds, random() in [0,1), uniform bounds) appear
as hypotheses on the theorems that need them. -/
structure OrderDraws where
  customerDraw : ℕ
  orderDateDraw : ℤ
  primeDraw : ℚ
  deliveryDraw : ℚ
  delayDraw : ℚ
  delayDaysDraw : ℤ
  carrierDraw : ℚ
  costJitterDraw : ℚ
  productDraw : ℕ
  quantityDraw : ℤ
  zipDraw : String

/-- One iteration of the order generation loop (source lines 111 to 169):
draw the order date, membership, base delivery time; compute expected and
actual delivery dates (the delay trial of lines 123 to 125 consumes one
uniform draw and, when it fires, adds randint(1, AVERAGE_DELAY_DAYS) days);
derive the status by three-way comparison (lines 127 to 133); pick the
carrier and cost (lines 136 to 143); assemble the row. -/
def generateRow (i : ℕ) (d : OrderDraws) : OrderRow :=
  let order_date := get_random_date START_DATE END_DATE d.orderDateDraw
  let is_prime_member := decide (d.primeDraw < PRIME_MEMBER_RATIO)
  let delivery_days := get_delivery_time is_prime_member d.deliveryDraw
  let expected_delivery_date := order_date + delivery_days
  let actual_delivery_date :=
    actual_delivery_date_of expected_delivery_date
      (delay_fired is_prime_member d.delayDraw) d.delayDaysDraw
  let delivery_status := delivery_status_of actual_delivery_date expected_delivery_date
  let carrier := get_carrier is_prime_member d.carrierDraw
  { order_id := order_id i
    customer_id := "CUST-" ++ padNum 5 d.customerDraw
    order_date := order_date
    is_prime_member := is_prime_member
    expected_delivery_date := expected_delivery_date
    actual_delivery_date := actual_delivery_date
    delivery_status := delivery_status
    carrier := carrier
    delivery_cost_to_amazon := delivery_cost_to_amazon is_prime_member carrier d.costJitterDraw
    product_id := "PROD-" ++ padNum 3 d.productDraw
    order_quantity := d.quantityDraw
    destination_zip_code := d.zipDraw }

/-- Outcome of attempting to read the zip-code CSV, abstracting the file
system: missing file, any other read error, or a table of named columns of
string-rendered values (the source immediately applies astype(str) to the
column it uses, so columns are modelled as lists of strings). -/
inductive CsvOutcome where
  | missing
  | readError
  | table (cols : List (String × List String))

/-- Python str.zfill(width): left-pad with zero characters up to the width;
a leading sign character stays in front of the padding; never truncates. -/
def zfill (width : ℕ) (s : String) : String :=
  if width ≤ s.length then s
  else
    match s.data with
    | [] => String.mk (List.replicate width '0')
    | c :: rest =>
        if c = '+' ∨ c = '-' then
          String.mk (c :: (List.replicate (width - s.length) '0' ++ rest))
        else
          String.mk (List.replicate (width - s.length) '0' ++ s.data)

/-- Python str.isdigit restricted to ASCII content: nonempty and all
characters decimal digits. -/
def str_isdigit (s : String) : Bool :=
  !s.data.isEmpty && s.data.all fun c => c.isDigit

/-- The zip validity filter of source lines 81 and 85: exactly 5 characters
and all digits. -/
def validZip (z : String) : Bool :=
  decide (z.length = 5) && str_isdigit z

/-- The per-column processing of load_real_zip_codes (source lines 80 to
82): render values as strings (already done by the column model), zfill to
5, keep the valid 5-digit strings, deduplicate (the source goes through a
set; only membership and freedom from duplicates are order-stable). -/
def processZipColumn (vals : List String) : List String :=
  (((vals.map fun v => zfill 5 v).filter validZip)).dedup

/-- load_real_zip_codes (source lines 74 to 95): on a missing file or any
other read error, an empty list; otherwise use the column named zip, else
the column named ZIP, else return an empty list; process the chosen column
into unique valid 5-digit zip strings. -/
def load_real_zip_codes : CsvOutcome → List String
  | .missing => []
  | .readError => []
  | .table cols =>
      match cols.lookup "zip" with
      | some vals => processZipColumn vals
      | none =>
          match cols.lookup "ZIP" with
          | some vals => processZipColumn vals
          | none => []

/- ----------------------------------------------------------------------
Scope predicates and decoding helpers used by the theorems
---------------------------------------------------------------------- -/

/-- Whether a key of a JSON object is either absent or bound to a number.
Used to scope theorems to inputs on which the Python arithmetic of the
source is defined. -/
def fieldNumOrAbsent (j : Json) (key : String) : Bool :=
  match j.objGet key with
  | some v => v.isNum
  | none => true

/-- Scope predicate for the stops traversal: every dict-valued stop entry
carries numbers (or nothing) in its two time fields. -/
def stopsNumeric (stops : List (String × Json)) : Bool :=
  stops.all fun p =>
    !p.2.isObj ||
      (fieldNumOrAbsent p.2 "travel_time_to_next_stop_in_seconds" &&
       fieldNumOrAbsent p.2 "planned_service_time_seconds")

/-- Scope predicate for the package traversal: every package value is a
dict, so that the membership test on the string key dimensions is the dict
test of the source. -/
def pkgsAllDicts (entries : List (String × Json)) : Bool :=
  entries.all fun p => p.2.isObj

/-- Scope predicate for the volume computation: every dict-valued dimensions
record carries numbers (or nothing) in its three dimension fields. -/
def dimsNumeric (entries : List (String × Json)) : Bool :=
  entries.all fun p =>
    match p.2.objGet "dimensions" with
    | some (Json.obj ds) =>
        fieldNumOrAbsent (Json.obj ds) "depth_cm" &&
        fieldNumOrAbsent (Json.obj ds) "height_cm" &&
        fieldNumOrAbsent (Json.obj ds) "width_cm"
    | _ => true

/-- Numeric value of a decimal digit character. -/
def charToDigit (c : Char) : ℕ :=
  c.toNat - 48

/-- Decode a most-significant-first digit-character list back to the natural
number it renders; the retraction used to prove that zero-padded decimal
rendering is injective. -/
def decodeDigits (cs : List Char) : ℕ :=
  Nat.ofDigits 10 ((cs.map charToDigit).reverse)

/- ----------------------------------------------------------------------
Helper lemmas
---------------------------------------------------------------------- -/

/-- A successful keyed lookup witnesses that the JSON value is a nonempty
object, hence truthy. -/
theorem Json.objGet_some_truthy {j : Json} {k : String} {v : Json}
    (h : j.objGet k = some v) : j.truthy = true := by
  match j with
  | .obj [] => simp [Json.objGet, List.lookup] at h
  | .obj (p :: l) => rfl
  | .null => simp [Json.objGet] at h
  | .bool _ => simp [Json.objGet] at h
  | .num _ => simp [Json.objGet] at h
  | .str _ => simp [Json.objGet] at h
  | .arr _ => simp [Json.objGet] at h

/-- Pointwise sums of rationals over a list split. -/
theorem sum_map_split {α : Type} (l : List α) (f g : α → ℚ) :
    (l.map fun x => f x + g x).sum = (l.map f).sum + (l.map g).sum := by
  induction l with
  | nil => simp
  | cons a t ih => simp only [List.map_cons, List.sum_cons, ih]; ring

/-- The clamp at zero is the max with zero. -/
theorem clamp0_eq_max (q : ℚ) : clamp0 q = max 0 q := by
  unfold clamp0
  split
  · exact (max_eq_left (le_of_lt (by assumption))).symm
  · exact (max_eq_right (not_lt.mp (by assumption))).symm

/-- The status function satisfies the three-way comparison specification. -/
theorem delivery_status_of_spec (a e : ℤ) :
    ((delivery_status_of a e = "Early") ↔ a < e) ∧
    ((delivery_status_of a e = "On-Time") ↔ a = e) ∧
    ((delivery_status_of a e = "Late") ↔ e < a) := by
  have hEO : ("Early" : String) = "On-Time" → False := by decide
  have hEL : ("Early" : String) = "Late" → False := by decide
  have hOE : ("On-Time" : String) = "Early" → False := by decide
  have hOL : ("On-Time" : String) = "Late" → False := by decide
  have hLE : ("Late" : String) = "Early" → False := by decide
  have hLO : ("Late" : String) = "On-Time" → False := by decide
  unfold delivery_status_of
  rcases lt_trichotomy a e with h | h | h
  · rw [if_pos h]
    exact ⟨⟨fun _ => h, fun _ => rfl⟩,
      ⟨fun hs => absurd hs hEO, fun he => absurd he (by omega)⟩,
      ⟨fun hs => absurd hs hEL, fun hl => absurd hl (by omega)⟩⟩
  · rw [if_neg (by omega : ¬a < e), if_pos h]
    exact ⟨⟨fun hs => absurd hs hOE, fun hl => absurd hl (by omega)⟩,
      ⟨fun _ => h, fun _ => rfl⟩,
      ⟨fun hs => absurd hs hOL, fun hl => absurd hl (by omega)⟩⟩
  · rw [if_neg (by omega : ¬a < e), if_neg (by omega : ¬a = e)]
    exact ⟨⟨fun hs => absurd hs hLE, fun hl => absurd hl (by omega)⟩,
      ⟨fun hs => absurd hs hLO, fun he => absurd he (by omega)⟩,
      ⟨fun _ => h, fun _ => rfl⟩⟩

/- ----------------------------------------------------------------------
Claim theorems
---------------------------------------------------------------------- -/

/-- C8: load_json_file returns the parsed structure when the file exists and
parses to non-empty (truthy) content, and returns an empty mapping when the
file is missing, decodes with an error, fails with any other load-time
error, or parses to empty content; as a total function of the load outcome
it propagates no exception past its boundary. -/
theorem load_json_file_spec :
    (∀ j : Json, j.truthy = true → load_json_file (.parsed j) = j) ∧
    (∀ j : Json, j.truthy = false → load_json_file (.parsed j) = Json.obj []) ∧
    load_json_file .missing = Json.obj [] ∧
    load_json_file .decodeError = Json.obj [] ∧
    load_json_file .otherError = Json.obj [] := by
  refine ⟨fun j h => ?_, fun j h => ?_, rfl, rfl, rfl⟩ <;> simp [load_json_file, h]

/-- Witness for C8 at concrete inputs: a nonempty parsed object is returned
verbatim, and a parsed empty object is replaced by the empty mapping. -/
theorem load_json_file_spec_witness :
    (Json.obj [("a", Json.num 1)]).truthy = true ∧
    load_json_file (.parsed (Json.obj [("a", Json.num 1)])) = Json.obj [("a", Json.num 1)] ∧
    (Json.obj []).truthy = false ∧
    load_json_file (.parsed (Json.obj [])) = Json.obj [] :=
  ⟨by decide, load_json_file_spec.1 _ (by decide), by decide,
    load_json_file_spec.2.1 _ (by decide)⟩

/-- C6: the delivery status of every generated row is derived from the
three-way comparison of its actual against its expected delivery date:
strictly earlier is Early, equal is On-Time, strictly later is Late. -/
theorem generateRow_delivery_status (i : ℕ) (d : OrderDraws) :
    (((generateRow i d).delivery_status = "Early") ↔
        (generateRow i d).actual_delivery_date < (generateRow i d).expected_delivery_date) ∧
    (((generateRow i d).delivery_status = "On-Time") ↔
        (generateRow i d).actual_delivery_date = (generateRow i d).expected_delivery_date) ∧
    (((generateRow i d).delivery_status = "Late") ↔
        (generateRow i d).expected_delivery_date < (generateRow i d).actual_delivery_date) := by
  have hs : (generateRow i d).delivery_status =
      delivery_status_of (generateRow i d).actual_delivery_date
        (generateRow i d).expected_delivery_date := rfl
  rw [hs]
  exact delivery_status_of_spec _ _

/-- C5: for every generated row, whatever the random draws, the actual
delivery date is at least the expected one; the delay, when it fires, adds
the drawn number of days, which randint guarantees to lie between 1 and
AVERAGE_DELAY_DAYS, and otherwise actual equals expected; and the base
delivery duration is always at least 1 day. -/
theorem generateRow_delay_invariant (i : ℕ) (d : OrderDraws)
    (h1 : 1 ≤ d.delayDaysDraw) (h2 : d.delayDaysDraw ≤ AVERAGE_DELAY_DAYS) :
    (generateRow i d).expected_delivery_date ≤ (generateRow i d).actual_delivery_date ∧
    ((generateRow i d).actual_delivery_date = (generateRow i d).expected_delivery_date ∨
      ((generateRow i d).expected_delivery_date + 1 ≤ (generateRow i d).actual_delivery_date ∧
       (generateRow i d).actual_delivery_date ≤
         (generateRow i d).expected_delivery_date + AVERAGE_DELAY_DAYS)) ∧
    (∀ (p : Bool) (u : ℚ), 1 ≤ get_delivery_time p u) := by
  have hact : (generateRow i d).actual_delivery_date =
      actual_delivery_date_of (generateRow i d).expected_delivery_date
        (delay_fired (generateRow i d).is_prime_member d.delayDraw) d.delayDaysDraw := rfl
  have hdt : ∀ (p : Bool) (u : ℚ), 1 ≤ get_delivery_time p u := by
    intro p u
    cases p <;> simp [get_delivery_time]
  rw [hact]
  unfold actual_delivery_date_of
  cases delay_fired (generateRow i d).is_prime_member d.delayDraw with
  | true => rw [if_pos rfl]; exact ⟨by omega, Or.inr ⟨by omega, by omega⟩, hdt⟩
  | false => rw [if_neg (by simp)]; exact ⟨le_refl _, Or.inl rfl, hdt⟩

/-- Witness for C5 at a concrete row: delay-days draw 1 is in range and the
expected date does not exceed the actual date. -/
theorem generateRow_delay_invariant_witness :
    1 ≤ (⟨12345, 0, 0, 1.5, 0, 1, 0, 1, 123, 1, "90210"⟩ : OrderDraws).delayDaysDraw ∧
    (generateRow 0 ⟨12345, 0, 0, 1.5, 0, 1, 0, 1, 123, 1, "90210"⟩).expected_delivery_date ≤
      (generateRow 0 ⟨12345, 0, 0, 1.5, 0, 1, 0, 1, 123, 1, "90210"⟩).actual_delivery_date :=
  ⟨by decide,
    (generateRow_delay_invariant 0 ⟨12345, 0, 0, 1.5, 0, 1, 0, 1, 123, 1, "90210"⟩
      (by decide) (by decide)).1⟩

/-- C4: the partial record used for a route identifier is the first
non-empty (truthy) one found across the three source locations in the fixed
order build, apply, eval: a truthy build record wins; otherwise a truthy
apply record wins; otherwise the eval lookup is used as is. -/
theorem resolveDetail_first_found (build apply_ eval_ : Json) (route_id : String) :
    (optTruthy (build.objGet route_id) = true →
      resolveDetail build apply_ eval_ route_id = build.objGet route_id) ∧
    (optTruthy (build.objGet route_id) = false →
      optTruthy (apply_.objGet route_id) = true →
      resolveDetail build apply_ eval_ route_id = apply_.objGet route_id) ∧
    (optTruthy (build.objGet route_id) = false →
      optTruthy (apply_.objGet route_id) = false →
      resolveDetail build apply_ eval_ route_id = eval_.objGet route_id) := by
  unfold resolveDetail pyOr
  refine ⟨fun h1 => ?_, fun h1 h2 => ?_, fun h1 h2 => ?_⟩
  · simp [h1]
  · simp [h1, h2]
  · simp [h1, h2]

/-- Witness for C4: three concrete source triples exercising each branch of
the precedence order build, then apply, then eval. -/
theorem resolveDetail_first_found_witness :
    resolveDetail (Json.obj [("R1", Json.obj [("k", Json.num 1)])])
        (Json.obj [("R1", Json.obj [("k", Json.num 2)])]) (Json.obj []) "R1"
      = (Json.obj [("R1", Json.obj [("k", Json.num 1)])]).objGet "R1" ∧
    resolveDetail (Json.obj []) (Json.obj [("R1", Json.obj [("k", Json.num 2)])])
        (Json.obj []) "R1"
      = (Json.obj [("R1", Json.obj [("k", Json.num 2)])]).objGet "R1" ∧
    resolveDetail (Json.obj []) (Json.obj [])
        (Json.obj [("R1", Json.obj [("k", Json.num 3)])]) "R1"
      = (Json.obj [("R1", Json.obj [("k", Json.num 3)])]).objGet "R1" :=
  ⟨(resolveDetail_first_found _ _ _ _).1 (by decide),
   (resolveDetail_first_found _ _ _ _).2.1 (by decide) (by decide),
   (resolveDetail_first_found _ _ _ _).2.2 (by decide) (by decide)⟩

/-- C7: for a generated row with carrier AMZL and prime membership, the cost
before the final rounding is exactly 5.00 times 1.2 times the jitter draw,
hence lies in the closed interval from 5.40 to 6.60 when the jitter lies in
its uniform range from 0.9 to 1.1; the stored cost field of the row is that
value rounded to 2 decimals. -/
theorem amzl_prime_cost_spec (i : ℕ) (d : OrderDraws)
    (hc : (generateRow i d).carrier = "AMZL")
    (hp : (generateRow i d).is_prime_member = true)
    (hj1 : (0.9 : ℚ) ≤ d.costJitterDraw) (hj2 : d.costJitterDraw ≤ (1.1 : ℚ)) :
    delivery_cost_before_round (generateRow i d).is_prime_member (generateRow i d).carrier
        d.costJitterDraw = 5.00 * 1.2 * d.costJitterDraw ∧
    (5.40 : ℚ) ≤ delivery_cost_before_round (generateRow i d).is_prime_member
        (generateRow i d).carrier d.costJitterDraw ∧
    delivery_cost_before_round (generateRow i d).is_prime_member (generateRow i d).carrier
        d.costJitterDraw ≤ (6.60 : ℚ) ∧
    (generateRow i d).delivery_cost_to_amazon =
      round2 (delivery_cost_before_round (generateRow i d).is_prime_member
        (generateRow i d).carrier d.costJitterDraw) := by
  have heq : delivery_cost_before_round (generateRow i d).is_prime_member
      (generateRow i d).carrier d.costJitterDraw = 5.00 * 1.2 * d.costJitterDraw := by
    rw [hp, hc]
    unfold delivery_cost_before_round base_cost
    norm_num [BASE_AMZL_COST_PER_PACKAGE, PRIME_EXPEDITED_COST_PREMIUM]
  refine ⟨heq, ?_, ?_, rfl⟩
  · rw [heq]; nlinarith
  · rw [heq]; nlinarith

/-- Witness for C7 at a concrete row whose draws give carrier AMZL, prime
membership and jitter 1. -/
theorem amzl_prime_cost_spec_witness :
    (generateRow 0 ⟨12345, 0, 0, 1.5, 1, 1, 0, 1, 123, 1, "90210"⟩).carrier = "AMZL" ∧
    (generateRow 0 ⟨12345, 0, 0, 1.5, 1, 1, 0, 1, 123, 1, "90210"⟩).is_prime_member = true ∧
    (5.40 : ℚ) ≤ delivery_cost_before_round
        (generateRow 0 ⟨12345, 0, 0, 1.5, 1, 1, 0, 1, 123, 1, "90210"⟩).is_prime_member
        (generateRow 0 ⟨12345, 0, 0, 1.5, 1, 1, 0, 1, 123, 1, "90210"⟩).carrier
        (⟨12345, 0, 0, 1.5, 1, 1, 0, 1, 123, 1, "90210"⟩ : OrderDraws).costJitterDraw := by
  have hp : (generateRow 0 ⟨12345, 0, 0, 1.5, 1, 1, 0, 1, 123, 1, "90210"⟩).is_prime_member
      = true := by
    show decide ((0 : ℚ) < PRIME_MEMBER_RATIO) = true
    rw [decide_eq_true_eq]
    norm_num [ PRIME_MEMBER_RATIO]
  have hc : (generateRow 0 ⟨12345, 0, 0, 1.5, 1, 1, 0, 1, 123, 1, "90210"⟩).carrier
      = "AMZL" := by
    have hfield : (generateRow 0 ⟨12345, 0, 0, 1.5, 1, 1, 0, 1, 123, 1, "90210"⟩).carrier =
        get_carrier (generateRow 0 ⟨12345, 0, 0, 1.5, 1, 1, 0, 1, 123, 1, "90210"⟩).is_prime_member
          (0 : ℚ) := rfl
    rw [hfield, hp]
    show (if (0 : ℚ) < 0.85 then "AMZL"
          else weightedChoice [("UPS", 0.07), ("USPS", 0.05), ("FedEx", 0.03)] (0 - 0.85))
        = "AMZL"
    rw [if_pos (by norm_num)]
  exact ⟨hc, hp,
    (amzl_prime_cost_spec 0 ⟨12345, 0, 0, 1.5, 1, 1, 0, 1, 123, 1, "90210"⟩
      hc hp (by norm_num) (by norm_num)).2.1⟩

/-- A successful emission step determines the route id of the emitted row
and the truthiness of both resolved partial records. -/
theorem emitStep_eq_some {rb ra re pb pa pe sb sa se : Json} {rid : String}
    {row : ProcessedRoute}
    (h : emitStep rb ra re pb pa pe sb sa se rid = some row) :
    row.route_id = rid ∧ optTruthy (resolveDetail rb ra re rid) = true ∧
      optTruthy (resolveDetail pb pa pe rid) = true := by
  unfold emitStep at h
  split at h
  · next hcond =>
      rw [Bool.and_eq_true] at hcond
      obtain ⟨h1, h2⟩ := hcond
      cases h
      exact ⟨rfl, h1, h2⟩
  · next => cases h

/-- C1: for every route identifier considered by the aggregator (member of
the id set drawn from the three route-data documents), an aggregate record
is emitted if and only if both the resolved route-details record and the
resolved package-details record are truthy (present and non-empty); the
right-hand side does not mention the sequence-details sources, so a missing
or empty actual_sequences record never excludes a route. -/
theorem route_emitted_iff (rb ra re pb pa pe sb sa se : Json) (route_id : String)
    (h : route_id ∈ allRouteIds rb ra re) :
    route_id ∈ emittedIds rb ra re pb pa pe sb sa se ↔
      (optTruthy (resolveDetail rb ra re route_id) = true ∧
       optTruthy (resolveDetail pb pa pe route_id) = true) := by
  unfold emittedIds emittedRows
  rw [List.mem_map]
  constructor
  · rintro ⟨row, hrow, hrid⟩
    rw [List.mem_filterMap] at hrow
    obtain ⟨rid2, hmem, hf⟩ := hrow
    obtain ⟨hr, h1, h2⟩ := emitStep_eq_some hf
    rw [hrid] at hr
    rw [hr]
    exact ⟨h1, h2⟩
  · rintro ⟨h1, h2⟩
    refine ⟨process_single_route_data route_id
        ((resolveDetail rb ra re route_id).getD Json.null)
        ((resolveDetail pb pa pe route_id).getD Json.null)
        (resolveDetail sb sa se route_id), ?_, rfl⟩
    rw [List.mem_filterMap]
    refine ⟨route_id, h, ?_⟩
    unfold emitStep
    rw [h1, h2]
    rfl

/-- Witness for C1: a route id present in all three route-data documents but
in no package-data document is in the considered set yet not emitted, since
the resolved package record is absent; the iff instance is produced by the
theorem. -/
theorem route_emitted_iff_witness :
    "R1" ∈ allRouteIds (Json.obj [("R1", Json.obj [("city", Json.str "Austin")])])
        (Json.obj []) (Json.obj []) ∧
    ("R1" ∈ emittedIds (Json.obj [("R1", Json.obj [("city", Json.str "Austin")])])
        (Json.obj []) (Json.obj []) (Json.obj []) (Json.obj []) (Json.obj [])
        (Json.obj []) (Json.obj []) (Json.obj []) ↔
      (optTruthy (resolveDetail (Json.obj [("R1", Json.obj [("city", Json.str "Austin")])])
          (Json.obj []) (Json.obj []) "R1") = true ∧
       optTruthy (resolveDetail (Json.obj []) (Json.obj []) (Json.obj []) "R1") = true)) :=
  ⟨by decide,
    route_emitted_iff (Json.obj [("R1", Json.obj [("city", Json.str "Austin")])])
      (Json.obj []) (Json.obj []) (Json.obj []) (Json.obj []) (Json.obj [])
      (Json.obj []) (Json.obj []) (Json.obj []) "R1" (by decide)⟩

/-- A JSON object with a nonempty field list is truthy. -/
theorem Json.obj_truthy_of_ne {fs : List (String × Json)} (h : fs ≠ []) :
    (Json.obj fs).truthy = true := by
  cases fs with
  | nil => exact absurd rfl h
  | cons p l => rfl

/-- C2: when the stops value of the route-details record is present and is a
nonempty mapping (and its time fields are numeric where present, which is
the domain on which the Python arithmetic is defined), the route duration is
the sum over the dict-valued stop entries of travel time plus planned
service time, each field defaulting to 0 when absent, divided by 3600 and
floored at zero; when the resolved stops value is absent, empty, or not a
mapping, the duration is 0. -/
theorem actual_route_duration_spec (route_id : String) (rd pd : Json) (sq : Option Json) :
    (∀ stops : List (String × Json), rd.objGet "stops" = some (Json.obj stops) → stops ≠ [] →
      stopsNumeric stops = true →
      (process_single_route_data route_id rd pd sq).actual_route_duration_hours =
        max 0 ((stops.map fun p =>
          if p.2.isObj then
            getQD p.2 "travel_time_to_next_stop_in_seconds" 0 +
              getQD p.2 "planned_service_time_seconds" 0
          else 0).sum / 3600)) ∧
    (rd.isObj = true →
      ((stopsResolved rd).truthy = false ∨ (stopsResolved rd).isObj = false) →
      (process_single_route_data route_id rd pd sq).actual_route_duration_hours = 0) := by
  have hfield : (process_single_route_data route_id rd pd sq).actual_route_duration_hours =
      routeDuration rd := rfl
  constructor
  · intro stops hstops hne hnum
    have htr : rd.truthy = true := Json.objGet_some_truthy hstops
    have hsr : stopsResolved rd = Json.obj stops := by
      unfold stopsResolved
      rw [hstops]
      rfl
    have hcond : ((Json.obj stops).truthy && (Json.obj stops).isObj) = true := by
      rw [Bool.and_eq_true]
      exact ⟨Json.obj_truthy_of_ne hne, rfl⟩
    rw [hfield]
    unfold routeDuration
    rw [if_pos htr, hsr, if_pos hcond]
    rw [show (Json.obj stops).objEntries = stops from rfl]
    rw [clamp0_eq_max]
    have hmap : (stops.map fun p =>
        if p.2.isObj then
          getQD p.2 "travel_time_to_next_stop_in_seconds" 0 +
            getQD p.2 "planned_service_time_seconds" 0
        else 0) =
        stops.map fun p => stopTravel p.2 + stopService p.2 := by
      apply List.map_congr_left
      intro p hp
      unfold stopTravel stopService
      by_cases hobj : p.2.isObj = true
      · rw [if_pos hobj, if_pos hobj, if_pos hobj]
      · rw [if_neg hobj, if_neg hobj, if_neg hobj]
        norm_num
    have hsum : (stops.map fun p =>
        if p.2.isObj then
          getQD p.2 "travel_time_to_next_stop_in_seconds" 0 +
            getQD p.2 "planned_service_time_seconds" 0
        else 0).sum =
        (stops.map fun p => stopTravel p.2).sum +
          (stops.map fun p => stopService p.2).sum := by
      rw [hmap, sum_map_split]
    rw [hsum]
  · intro hobj hfalse
    rw [hfield]
    unfold routeDuration
    by_cases htr : rd.truthy = true
    · rw [if_pos htr, if_neg (by rcases hfalse with hf | hf <;> simp [hf])]
    · rw [if_neg htr]

/-- Witness for C2 at the example of the specification: one stop with travel
time 3600 seconds and planned service time 1800 seconds gives a duration of
exactly 1.5 hours. -/
theorem actual_route_duration_spec_witness :
    (process_single_route_data "RouteW"
        (Json.obj [("stops", Json.obj [("s1", Json.obj
          [("travel_time_to_next_stop_in_seconds", Json.num 3600),
           ("planned_service_time_seconds", Json.num 1800)])])])
        (Json.obj []) none).actual_route_duration_hours = 1.5 := by
  have h := (actual_route_duration_spec "RouteW"
      (Json.obj [("stops", Json.obj [("s1", Json.obj
        [("travel_time_to_next_stop_in_seconds", Json.num 3600),
         ("planned_service_time_seconds", Json.num 1800)])])])
      (Json.obj []) none).1
    [("s1", Json.obj [("travel_time_to_next_stop_in_seconds", Json.num 3600),
       ("planned_service_time_seconds", Json.num 1800)])]
    rfl (List.cons_ne_nil _ _) (by decide)
  rw [h]
  have g1 : getQD (Json.obj [("travel_time_to_next_stop_in_seconds", Json.num 3600),
      ("planned_service_time_seconds", Json.num 1800)])
      "travel_time_to_next_stop_in_seconds" 0 = 3600 := rfl
  have g2 : getQD (Json.obj [("travel_time_to_next_stop_in_seconds", Json.num 3600),
      ("planned_service_time_seconds", Json.num 1800)])
      "planned_service_time_seconds" 0 = 1800 := rfl
  norm_num [g1, g2, Json.isObj]

/-- C3: for a non-empty package-details record, the inner package mapping is
located under the key AD when that binding is a nonempty mapping, and
otherwise under the key packages when that binding is a mapping; the
delivery count is the number of entries of the located mapping and the total
volume is the sum of depth times height times width over the packages that
carry a dimensions mapping, each dimension defaulting to 0 when absent
(scoped to inputs whose packages are dicts with numeric dimension fields,
on which the Python arithmetic is defined). -/
theorem package_metrics_spec (route_id : String) (rd pd : Json) (sq : Option Json) :
    (∀ fs : List (String × Json), pd.objGet "AD" = some (Json.obj fs) → fs ≠ [] →
      pkgsAllDicts fs = true → dimsNumeric fs = true →
      (process_single_route_data route_id rd pd sq).num_deliveries = fs.length ∧
      (process_single_route_data route_id rd pd sq).total_calculated_volume_cm3 =
        (fs.map fun p => pkgVolume p.2).sum) ∧
    (∀ gs : List (String × Json),
      ((pd.objGet "AD").getD (Json.obj [])).truthy = false →
      pd.objGet "packages" = some (Json.obj gs) →
      pkgsAllDicts gs = true → dimsNumeric gs = true →
      (process_single_route_data route_id rd pd sq).num_deliveries = gs.length ∧
      (process_single_route_data route_id rd pd sq).total_calculated_volume_cm3 =
        (gs.map fun p => pkgVolume p.2).sum) := by
  have hnum : (process_single_route_data route_id rd pd sq).num_deliveries =
      numDeliveries pd := rfl
  have hvol : (process_single_route_data route_id rd pd sq).total_calculated_volume_cm3 =
      totalVolume pd := rfl
  constructor
  · intro fs hAD hne hdicts hdims
    have htr : pd.truthy = true := Json.objGet_some_truthy hAD
    have hinner : innerPackages pd = Json.obj fs := by
      unfold innerPackages
      rw [hAD]
      rw [show (some (Json.obj fs)).getD (Json.obj []) = Json.obj fs from rfl]
      rw [if_pos (Json.obj_truthy_of_ne hne)]
    rw [hnum, hvol]
    unfold numDeliveries totalVolume
    rw [if_pos htr, if_pos htr, hinner]
    exact ⟨rfl, rfl⟩
  · intro gs hADfalsy hpk hdicts hdims
    have htr : pd.truthy = true := Json.objGet_some_truthy hpk
    have hinner : innerPackages pd = Json.obj gs := by
      unfold innerPackages
      rw [if_neg (by simp [hADfalsy]), hpk]
    rw [hnum, hvol]
    unfold numDeliveries totalVolume
    rw [if_pos htr, if_pos htr, hinner]
    exact ⟨rfl, rfl⟩

/-- Witness for C3 at the example of the specification: two packages with
dimensions 2 by 3 by 4 and 1 by 1 by 1 under the AD key give delivery count
2 and total volume 25. -/
theorem package_metrics_spec_witness :
    (process_single_route_data "RouteP" (Json.obj [])
        (Json.obj [("AD", Json.obj
          [("p1", Json.obj [("dimensions", Json.obj
            [("depth_cm", Json.num 2), ("height_cm", Json.num 3), ("width_cm", Json.num 4)])]),
           ("p2", Json.obj [("dimensions", Json.obj
            [("depth_cm", Json.num 1), ("height_cm", Json.num 1), ("width_cm", Json.num 1)])])])])
        none).num_deliveries = 2 ∧
    (process_single_route_data "RouteP" (Json.obj [])
        (Json.obj [("AD", Json.obj
          [("p1", Json.obj [("dimensions", Json.obj
            [("depth_cm", Json.num 2), ("height_cm", Json.num 3), ("width_cm", Json.num 4)])]),
           ("p2", Json.obj [("dimensions", Json.obj
            [("depth_cm", Json.num 1), ("height_cm", Json.num 1), ("width_cm", Json.num 1)])])])])
        none).total_calculated_volume_cm3 = 25 := by
  have h := (package_metrics_spec "RouteP" (Json.obj [])
      (Json.obj [("AD", Json.obj
        [("p1", Json.obj [("dimensions", Json.obj
          [("depth_cm", Json.num 2), ("height_cm", Json.num 3), ("width_cm", Json.num 4)])]),
         ("p2", Json.obj [("dimensions", Json.obj
          [("depth_cm", Json.num 1), ("height_cm", Json.num 1), ("width_cm", Json.num 1)])])])])
      none).1
    [("p1", Json.obj [("dimensions", Json.obj
       [("depth_cm", Json.num 2), ("height_cm", Json.num 3), ("width_cm", Json.num 4)])]),
     ("p2", Json.obj [("dimensions", Json.obj
       [("depth_cm", Json.num 1), ("height_cm", Json.num 1), ("width_cm", Json.num 1)])])]
    rfl (List.cons_ne_nil _ _) (by decide) (by decide)
  have v1 : pkgVolume (Json.obj [("dimensions", Json.obj
      [("depth_cm", Json.num 2), ("height_cm", Json.num 3), ("width_cm", Json.num 4)])]) =
      (2 : ℚ) * 3 * 4 := rfl
  have v2 : pkgVolume (Json.obj [("dimensions", Json.obj
      [("depth_cm", Json.num 1), ("height_cm", Json.num 1), ("width_cm", Json.num 1)])]) =
      (1 : ℚ) * 1 * 1 := rfl
  refine ⟨h.1, ?_⟩
  rw [h.2]
  norm_num [v1, v2]

/-- Decoding a digit character produced from a digit below 10 recovers the
digit. -/
theorem charToDigit_ofNat (d : ℕ) (hd : d < 10) : charToDigit (Char.ofNat (48 + d)) = d := by
  interval_cases d <;> decide

/-- A block of zero digits contributes nothing to the decoded value. -/
theorem ofDigits_replicate_zero (b k : ℕ) : Nat.ofDigits b (List.replicate k 0) = 0 := by
  induction k with
  | zero => simp [Nat.ofDigits]
  | succ k ih => simp [List.replicate_succ, Nat.ofDigits_cons, ih]

/-- Decoding inverts zero-padded decimal rendering, for every width and
every number. -/
theorem decode_pad (w n : ℕ) :
    decodeDigits (List.replicate (w - (natDigits n).length) '0' ++ natDigits n) = n := by
  have hbase : Nat.ofDigits 10 (((natDigits n).map charToDigit).reverse) = n := by
    by_cases hn : n = 0
    · subst hn
      simp [natDigits, charToDigit, Nat.ofDigits]
    · have hmap : (natDigits n).map charToDigit = (Nat.digits 10 n).reverse := by
        unfold natDigits
        rw [if_neg hn, List.map_map]
        have hall : ∀ d ∈ (Nat.digits 10 n).reverse,
            (charToDigit ∘ fun d => Char.ofNat (48 + d)) d = id d := by
          intro d hd
          rw [List.mem_reverse] at hd
          exact charToDigit_ofNat d (Nat.digits_lt_base (by norm_num) hd)
        rw [List.map_congr_left hall, List.map_id]
      rw [hmap, List.reverse_reverse, Nat.ofDigits_digits]
  unfold decodeDigits
  rw [List.map_append, List.reverse_append, Nat.ofDigits_append, List.map_replicate]
  rw [show charToDigit '0' = 0 from rfl, List.reverse_replicate, ofDigits_replicate_zero]
  simpa using hbase

/-- C10: order identifiers are a unique key of the generated table: the
formatted id ORD- followed by the index zero-padded to 7 digits is injective
on indices below 10000000, and the configured row count NUM_ORDERS lies
below that bound. -/
theorem order_id_unique_key (i j : ℕ) (hi : i < 10000000) (hj : j < 10000000)
    (h : order_id i = order_id j) : i = j ∧ NUM_ORDERS < 10000000 := by
  refine ⟨?_, by norm_num [NUM_ORDERS]⟩
  have hdata : ("ORD-" ++ padNum 7 i).data = ("ORD-" ++ padNum 7 j).data :=
    congrArg String.data h
  rw [String.data_append, String.data_append] at hdata
  have hpad : (padNum 7 i).data = (padNum 7 j).data := List.append_cancel_left hdata
  have hi2 : decodeDigits ((padNum 7 i).data) = i := decode_pad 7 i
  have hj2 : decodeDigits ((padNum 7 j).data) = j := decode_pad 7 j
  rw [hpad] at hi2
  exact hi2.symm.trans hj2

/-- Witness for C10: two distinct small indices receive distinct order ids,
and the row count bound holds. -/
theorem order_id_unique_key_witness :
    order_id 0 ≠ order_id 1 ∧ NUM_ORDERS < 10000000 :=
  ⟨fun h => absurd (order_id_unique_key 0 1 (by norm_num) (by norm_num) h).1 (by norm_num),
   (order_id_unique_key 3 3 (by norm_num) (by norm_num) rfl).2⟩

/-- The per-column zip processing yields exactly the valid padded values,
without duplicates. -/
theorem processZipColumn_spec (vals : List String) :
    (∀ z, z ∈ processZipColumn vals ↔
      ((∃ c ∈ vals, zfill 5 c = z) ∧ validZip z = true)) ∧
    (processZipColumn vals).Nodup := by
  constructor
  · intro z
    unfold processZipColumn
    rw [List.mem_dedup, List.mem_filter, List.mem_map]
  · exact List.nodup_dedup _

/-- C9: for a table with a zip column (or, failing that, a ZIP column), the
loaded zip list contains exactly the candidate values that, after
left-zero-padding to 5 characters, consist of exactly 5 digits, with
duplicates removed; a missing file, any other read error, or a table with
neither column gives the empty list. -/
theorem load_real_zip_codes_spec :
    (∀ (cols : List (String × List String)) (vals : List String),
      cols.lookup "zip" = some vals →
      ((∀ z, z ∈ load_real_zip_codes (.table cols) ↔
          ((∃ c ∈ vals, zfill 5 c = z) ∧ validZip z = true)) ∧
        (load_real_zip_codes (.table cols)).Nodup)) ∧
    (∀ (cols : List (String × List String)) (vals : List String),
      cols.lookup "zip" = none → cols.lookup "ZIP" = some vals →
      ((∀ z, z ∈ load_real_zip_codes (.table cols) ↔
          ((∃ c ∈ vals, zfill 5 c = z) ∧ validZip z = true)) ∧
        (load_real_zip_codes (.table cols)).Nodup)) ∧
    load_real_zip_codes .missing = [] ∧
    load_real_zip_codes .readError = [] ∧
    (∀ cols : List (String × List String), cols.lookup "zip" = none →
      cols.lookup "ZIP" = none → load_real_zip_codes (.table cols) = []) := by
  refine ⟨?_, ?_, rfl, rfl, ?_⟩
  · intro cols vals h
    have he : load_real_zip_codes (.table cols) = processZipColumn vals := by
      show (match cols.lookup "zip" with
            | some vals => processZipColumn vals
            | none =>
              match cols.lookup "ZIP" with
              | some vals => processZipColumn vals
              | none => []) = processZipColumn vals
      rw [h]
    rw [he]
    exact processZipColumn_spec vals
  · intro cols vals h1 h2
    have he : load_real_zip_codes (.table cols) = processZipColumn vals := by
      show (match cols.lookup "zip" with
            | some vals => processZipColumn vals
            | none =>
              match cols.lookup "ZIP" with
              | some vals => processZipColumn vals
              | none => []) = processZipColumn vals
      rw [h1, h2]
    rw [he]
    exact processZipColumn_spec vals
  · intro cols h1 h2
    show (match cols.lookup "zip" with
          | some vals => processZipColumn vals
          | none =>
            match cols.lookup "ZIP" with
            | some vals => processZipColumn vals
            | none => []) = []
    rw [h1, h2]

/-- Witness for C9 at the example of the specification: from the column
values 1234, 90210 and abc12, the padded 01234 is in the result and the
non-digit abc12 is not. -/
theorem load_real_zip_codes_spec_witness :
    "01234" ∈ load_real_zip_codes (.table [("zip", ["1234", "90210", "abc12"])]) ∧
    "abc12" ∉ load_real_zip_codes (.table [("zip", ["1234", "90210", "abc12"])]) := by
  have h := (load_real_zip_codes_spec.1 [("zip", ["1234", "90210", "abc12"])]
      ["1234", "90210", "abc12"] rfl).1
  constructor
  · exact (h "01234").mpr (by decide)
  · intro hm
    exact absurd ((h "abc12").mp hm).2 (by decide)
